import Mathlib

/-!
Shallow embedding of the prognosis ticket backend (Django app in
`prognosis_django_app.py`, `prognosis_retrieve_api.py`,
`prognosis_retrieve_serializers.py`).

Python strings are modelled as Lean `String`; machine integers and
database keys as `Nat`/`Int`; `Decimal`/`float` coordinate values as `Rat`;
nullable columns as `Option`; exceptions as `Except`.  Database state is an
explicit record of row lists, and `objects.create` calls may be made to
fail through an injected oracle so that the transactional behaviour of the
ingestion view can be stated.
-/

namespace Prognosis

/-! ## String primitives (Python `str.strip`, `str.upper`, regex checks) -/

/-- ASCII uppercase of one character, as Python's `str.upper` acts on the
ASCII range used by the validation patterns. -/
def pyCharUpper (c : Char) : Char :=
  if c = 'a' then 'A' else if c = 'b' then 'B' else if c = 'c' then 'C'
  else if c = 'd' then 'D' else if c = 'e' then 'E' else if c = 'f' then 'F'
  else if c = 'g' then 'G' else if c = 'h' then 'H' else if c = 'i' then 'I'
  else if c = 'j' then 'J' else if c = 'k' then 'K' else if c = 'l' then 'L'
  else if c = 'm' then 'M' else if c = 'n' then 'N' else if c = 'o' then 'O'
  else if c = 'p' then 'P' else if c = 'q' then 'Q' else if c = 'r' then 'R'
  else if c = 's' then 'S' else if c = 't' then 'T' else if c = 'u' then 'U'
  else if c = 'v' then 'V' else if c = 'w' then 'W' else if c = 'x' then 'X'
  else if c = 'y' then 'Y' else if c = 'z' then 'Z' else c

/-- Python `str.upper` restricted to the ASCII letters. -/
def pyUpper (s : String) : String :=
  String.mk (s.data.map pyCharUpper)

/-- Whitespace characters removed by Python's `str.strip()`. -/
def isPyWS (c : Char) : Bool :=
  c = ' ' ∨ c = '\t' ∨ c = '\n' ∨ c = '\r'

/-- Python `str.strip()`: remove leading and trailing whitespace. -/
def pyStrip (s : String) : String :=
  String.mk (((s.data.dropWhile isPyWS).reverse.dropWhile isPyWS).reverse)

/-- `re.match(r'^[a-zA-Z0-9]{1,20}$', s)` (on an already stripped string). -/
def matchesVehicleId (s : String) : Bool :=
  decide (1 ≤ s.data.length) ∧ decide (s.data.length ≤ 20) ∧
    s.data.all (fun c => c.isAlpha ∨ c.isDigit)

/-- One character of the error-code class `[A-Z0-9\-_]`. -/
def isErrCodeChar (c : Char) : Bool :=
  (decide ('A' ≤ c) ∧ decide (c ≤ 'Z')) ∨ c.isDigit ∨ c = '-' ∨ c = '_'

/-- `re.match(r'^[A-Z0-9\-_]{1,20}$', s)` (on an already stripped string). -/
def matchesErrCode (s : String) : Bool :=
  decide (1 ≤ s.data.length) ∧ decide (s.data.length ≤ 20) ∧
    s.data.all isErrCodeChar

/-- `re.match(r'^\d{2}\.\d{2}\.\d{4} \d{2}\.\d{2}\.\d{2}$', s)`. -/
def matchesDatetime (s : String) : Bool :=
  match s.data with
  | [d1, d2, '.', m1, m2, '.', y1, y2, y3, y4, ' ',
     h1, h2, '.', n1, n2, '.', s1, s2] =>
      [d1, d2, m1, m2, y1, y2, y3, y4, h1, h2, n1, n2, s1, s2].all Char.isDigit
  | _ => false

/-- `re.match(r'^-?\d+\.?\d*$', s)`: optional sign, at least one integer
digit, optional decimal point, optional fraction digits. -/
def matchesNumeric (s : String) : Bool :=
  let core := match s.data with
    | '-' :: rest => rest
    | l => l
  let intPart := core.takeWhile Char.isDigit
  let rest := core.dropWhile Char.isDigit
  let fracOk : Bool := match rest with
    | [] => true
    | '.' :: frac => frac.all Char.isDigit
    | _ => false
  decide (1 ≤ intPart.length) && fracOk

/-- Numeric value of a list of ASCII digits. -/
def digitsVal (l : List Char) : Nat :=
  l.foldl (fun a c => a * 10 + (c.toNat - '0'.toNat)) 0

/-- Exact value of a decimal string in the language of `matchesNumeric`,
as Python's `Decimal` constructor computes it; `none` when the string is
not of that shape (the `InvalidOperation` case). -/
def decOfString (s : String) : Option Rat :=
  let (neg, core) : Bool × List Char := match s.data with
    | '-' :: rest => (true, rest)
    | l => (false, l)
  let intPart := core.takeWhile Char.isDigit
  let rest := core.dropWhile Char.isDigit
  if intPart.length = 0 then none
  else
    let mk : List Char → Rat := fun frac =>
      let num : Int :=
        (digitsVal intPart * 10 ^ frac.length + digitsVal frac : Nat)
      mkRat (if neg then -num else num) (10 ^ frac.length)
    match rest with
    | [] => some (mk [])
    | '.' :: frac =>
        if frac.all Char.isDigit then some (mk frac) else none
    | _ => none

/-! ## Records -/

/-- One raw alert record as submitted in the `data` array of the request. -/
structure RawRecord where
  vehicle_id : String
  error_code : String
  datetime : String
  location_lat : String
  location_long : String
  vehicle_location : String
deriving Repr, DecidableEq

/-- A record as returned by `validate_and_sanitize_record` (the dict built
at the end of that method). -/
structure ValidRecord where
  vehicle_id : String
  error_code : String
  datetime : String
  location_lat : String
  location_long : String
  vehicle_location : String
deriving Repr, DecidableEq

/-! ## `PrognosisDataSerializer` / `PrognosisRequestSerializer` -/

/-- The DRF `CharField` length validators (`min_length`/`max_length`,
with `allow_blank` encoded as a zero minimum). -/
def lengthOk (s : String) (lo hi : Nat) : Bool :=
  decide (lo ≤ s.data.length) ∧ decide (s.data.length ≤ hi)

/-- Field-level validation of one record by `PrognosisDataSerializer`:
DRF `CharField`s trim whitespace and check length bounds, then the
`validate_<field>` methods run; `validate_error_code` returns
`value.upper()`. -/
def serializeRecord (r : RawRecord) : Except String RawRecord :=
  if ¬ lengthOk (pyStrip r.vehicle_id) 1 20 then
    .error "vehicle_id length"
  else if ¬ matchesVehicleId (pyStrip r.vehicle_id) then
    .error "Vehicle ID must be alphanumeric and max 20 characters"
  else if ¬ lengthOk (pyStrip r.error_code) 1 20 then
    .error "error_code length"
  else if ¬ matchesErrCode (pyUpper (pyStrip r.error_code)) then
    .error "Error code must be alphanumeric with dash/underscore only, max 20 characters"
  else if ¬ lengthOk (pyStrip r.datetime) 1 19 then
    .error "datetime length"
  else if ¬ matchesDatetime (pyStrip r.datetime) then
    .error "Datetime must be in format DD.MM.YYYY HH.MM.SS"
  else if ¬ lengthOk (pyStrip r.location_lat) 0 15 then
    .error "location_lat length"
  else if pyStrip r.location_lat ≠ "" ∧
      ¬ matchesNumeric (pyStrip r.location_lat) then
    .error "Invalid latitude format"
  else if ¬ lengthOk (pyStrip r.location_long) 0 15 then
    .error "location_long length"
  else if pyStrip r.location_long ≠ "" ∧
      ¬ matchesNumeric (pyStrip r.location_long) then
    .error "Invalid longitude format"
  else if ¬ lengthOk (pyStrip r.vehicle_location) 0 255 then
    .error "vehicle_location length"
  else
    .ok { vehicle_id := pyStrip r.vehicle_id,
          error_code := pyUpper (pyStrip r.error_code),
          datetime := pyStrip r.datetime,
          location_lat := pyStrip r.location_lat,
          location_long := pyStrip r.location_long,
          vehicle_location := pyStrip r.vehicle_location }

/-- `PrognosisRequestSerializer.is_valid()`: every item of the `data`
array must pass `PrognosisDataSerializer`, and `validate_data` rejects an
empty array or more than 1000 records. -/
def serializerValidate (raw : List RawRecord) : Except String (List RawRecord) := do
  let items ← raw.mapM serializeRecord
  if items.length = 0 then
    throw "Data array cannot be empty"
  if 1000 < items.length then
    throw "Maximum 1000 records allowed per request"
  pure items

/-! ## `CreatePrognosisTicketView.validate_and_sanitize_record` -/

/-- Strip the characters `;`, `'`, `"`, `\` (the SQL-injection denylist of
`re.sub(r'[;\'"\\]', '', ...)`). -/
def sanitizeLocation (s : String) : String :=
  String.mk (s.data.filter (fun c => ¬ (c = ';' ∨ c = '\'' ∨ c = '"' ∨ c = '\\')))

/-- `validate_and_sanitize_record`: per-record validation inside the view.
Returns the sanitized dict or the `ValidationError` message. -/
def validate_and_sanitize_record (item : RawRecord) : Except String ValidRecord :=
  if ¬ matchesVehicleId (pyStrip item.vehicle_id) then
    .error "Invalid vehicle_id format"
  else if ¬ matchesErrCode (pyUpper (pyStrip item.error_code)) then
    .error "Invalid error_code format"
  else if ¬ matchesDatetime (pyStrip item.datetime) then
    .error "Invalid datetime format"
  else if pyStrip item.location_lat ≠ "" ∧
      ¬ matchesNumeric (pyStrip item.location_lat) then
    .error "Invalid latitude format"
  else if pyStrip item.location_long ≠ "" ∧
      ¬ matchesNumeric (pyStrip item.location_long) then
    .error "Invalid longitude format"
  else
    -- `lat_decimal = Decimal(lat)` inside `try/except InvalidOperation`
    match (if pyStrip item.location_lat ≠ "" then
        decOfString (pyStrip item.location_lat) else some 0) with
    | none => .error "Invalid coordinate values"
    | some lat_decimal =>
      if pyStrip item.location_lat ≠ "" ∧
          ¬ (-90 ≤ lat_decimal ∧ lat_decimal ≤ 90) then
        .error "Latitude out of valid range"
      else
        match (if pyStrip item.location_long ≠ "" then
            decOfString (pyStrip item.location_long) else some 0) with
        | none => .error "Invalid coordinate values"
        | some long_decimal =>
          if pyStrip item.location_long ≠ "" ∧
              ¬ (-180 ≤ long_decimal ∧ long_decimal ≤ 180) then
            .error "Longitude out of valid range"
          else
            .ok { vehicle_id := pyStrip item.vehicle_id,
                  error_code := pyUpper (pyStrip item.error_code),
                  datetime := pyStrip item.datetime,
                  location_lat := pyStrip item.location_lat,
                  location_long := pyStrip item.location_long,
                  vehicle_location := sanitizeLocation
                    (String.mk ((pyStrip item.vehicle_location).data.take 255)) }

/-! ## Database model

Rows of `prognosis_ticket`, `prognosis_vin_details` and
`prognosis_ticket_errorcode`.  Primary keys are modelled as the row's index
in its table (rows are append-only in this subsystem); `created_at`
defaults to the request clock `now`. -/

structure TicketRow where
  id : Nat
  customer_id : Nat
  alert_count : Nat
  vehicle_count : Nat
  call_status_id : Nat
  remarks : String
  created_at : Int
deriving Repr, DecidableEq

structure VinRow where
  id : Nat
  ticket_id : Nat
  vin_no : String
  vehicle_location : String
  lat : Option Rat
  long : Option Rat
  created_at : Int
deriving Repr, DecidableEq

structure ErrRow where
  vin_id : Nat
  ticket_id : Nat
  error_code_id : Nat
  error_type : String
  error_desc : String
  error_status : String
  created_at : Int
deriving Repr, DecidableEq

structure DB where
  tickets : List TicketRow
  vins : List VinRow
  errors : List ErrRow
deriving Repr, DecidableEq

def DB.empty : DB := ⟨[], [], []⟩

/-- Failure injection for `objects.create` calls: the oracle is consulted
with a running operation index, and `true` means that create raises an
unexpected database exception. -/
abbrev Oracle := Nat → Bool

/-- The oracle under which every create succeeds. -/
def noFail : Oracle := fun _ => false

/-- Master-data lookup (vehicle → customer, error code → id):
single-row fetch by natural key, `none` on a miss. -/
abbrev Lookup := String → Option Nat

/-! ## `CreatePrognosisTicketView.create_ticket_for_customer` -/

/-- `safe_decimal`: `float(value) if value else None`, with conversion
errors mapped to `None`. -/
def safe_decimal (value : String) : Option Rat :=
  if value = "" then none else decOfString value

/-- Keys of the `vehicle_groups` dict in insertion order (Python dicts
preserve the order in which keys were first inserted). -/
def vehicleGroupIds (customer_data : List ValidRecord) : List String :=
  customer_data.foldl
    (fun acc r => if r.vehicle_id ∈ acc then acc else acc ++ [r.vehicle_id]) []

/-- The records of one vehicle group, in batch order. -/
def groupOf (customer_data : List ValidRecord) (vid : String) : List ValidRecord :=
  customer_data.filter (fun r => r.vehicle_id = vid)

/-- `total_alerts`: the loop increments once per record of the customer
group. -/
def totalAlerts (customer_data : List ValidRecord) : Nat :=
  customer_data.foldl (fun n _ => n + 1) 0

/-- The inner loop of `create_ticket_for_customer` that creates one
`PrognosisTicketErrorcode` row per record whose error code resolves in the
master table; unresolvable codes are skipped. -/
def createErrRows (errLookup : Lookup) (oracle : Oracle) (now : Int)
    (ticketId vinId : Nat) (records : List ValidRecord)
    (db : DB) (opIdx : Nat) : Except Unit (DB × Nat) :=
  match records with
  | [] => .ok (db, opIdx)
  | record :: rest =>
    match errLookup record.error_code with
    | some error_code_id =>
        if oracle opIdx then .error () else
        createErrRows errLookup oracle now ticketId vinId rest
          { db with errors := db.errors ++
              [{ vin_id := vinId, ticket_id := ticketId,
                 error_code_id := error_code_id,
                 error_type := record.error_code,
                 error_desc := "Error " ++ record.error_code ++ " detected",
                 error_status := "ACTIVE", created_at := now }] }
          (opIdx + 1)
    | none => createErrRows errLookup oracle now ticketId vinId rest db opIdx

/-- The per-vehicle loop: create one `PrognosisVinDetails` row from the
first record of the group, then the group's error rows. -/
def createVinRows (errLookup : Lookup) (oracle : Oracle) (now : Int)
    (ticketId : Nat) (customer_data : List ValidRecord) (vids : List String)
    (db : DB) (opIdx : Nat) : Except Unit (DB × Nat) :=
  match vids with
  | [] => .ok (db, opIdx)
  | vid :: rest =>
    match (groupOf customer_data vid).head? with
    | none => createVinRows errLookup oracle now ticketId customer_data rest db opIdx
    | some first_record =>
        if oracle opIdx then .error () else
        match createErrRows errLookup oracle now ticketId db.vins.length
            (groupOf customer_data vid)
            { db with vins := db.vins ++
                [{ id := db.vins.length, ticket_id := ticketId, vin_no := vid,
                   vehicle_location := first_record.vehicle_location,
                   lat := safe_decimal first_record.location_lat,
                   long := safe_decimal first_record.location_long,
                   created_at := now }] } (opIdx + 1) with
        | .error e => .error e
        | .ok (db', opIdx') =>
            createVinRows errLookup oracle now ticketId customer_data rest db' opIdx'

/-- The per-ticket summary dict returned by `create_ticket_for_customer`. -/
structure TicketSummary where
  ticket_id : Nat
  customer_id : Nat
  vehicle_count : Nat
  alert_count : Nat
deriving Repr, DecidableEq

/-- The `PrognosisTicket` row built by `PrognosisTicket.objects.create`
inside `create_ticket_for_customer`. -/
def mkTicketRow (db : DB) (customer_id : Nat)
    (customer_data : List ValidRecord) (now : Int) : TicketRow :=
  { id := db.tickets.length, customer_id := customer_id,
    alert_count := totalAlerts customer_data,
    vehicle_count := (vehicleGroupIds customer_data).length,
    call_status_id := 1,
    remarks := "Auto-created ticket for " ++
      toString (vehicleGroupIds customer_data).length ++
      " vehicles with " ++ toString (totalAlerts customer_data) ++ " alerts",
    created_at := now }

/-- `create_ticket_for_customer`: group the customer's records by vehicle,
create the ticket row, then the vehicle and error rows; any raised
exception propagates to the caller. -/
def create_ticket_for_customer (errLookup : Lookup) (oracle : Oracle) (now : Int)
    (customer_id : Nat) (customer_data : List ValidRecord)
    (db : DB) (opIdx : Nat) : Except Unit (DB × Nat × TicketSummary) :=
  if oracle opIdx then .error () else
  match createVinRows errLookup oracle now db.tickets.length customer_data
      (vehicleGroupIds customer_data)
      { db with tickets :=
          db.tickets ++ [mkTicketRow db customer_id customer_data now] }
      (opIdx + 1) with
  | .error e => .error e
  | .ok (db', opIdx') =>
      .ok (db', opIdx',
        { ticket_id := db.tickets.length, customer_id := customer_id,
          vehicle_count := (vehicleGroupIds customer_data).length,
          alert_count := totalAlerts customer_data })

/-! ## `CreatePrognosisTicketView.post` -/

/-- Append a record to its customer's group, preserving the insertion
order of `customer_groups` (a Python dict keyed by customer id). -/
def addToGroup (groups : List (Nat × List ValidRecord)) (cid : Nat)
    (r : ValidRecord) : List (Nat × List ValidRecord) :=
  match groups with
  | [] => [(cid, [r])]
  | (c, rs) :: rest =>
      if c = cid then (c, rs ++ [r]) :: rest
      else (c, rs) :: addToGroup rest cid r

/-- The grouping loop of `post`: look up each validated record's customer
and partition by customer id; records with no resolvable customer are
skipped. -/
def groupByCustomer (custLookup : Lookup) (validated : List ValidRecord) :
    List (Nat × List ValidRecord) :=
  validated.foldl
    (fun groups r =>
      match custLookup r.vehicle_id with
      | none => groups
      | some cid => addToGroup groups cid r) []

/-- The body of `with transaction.atomic()`: create each customer group's
ticket in turn; the first raised exception aborts the whole block. -/
def runGroups (errLookup : Lookup) (oracle : Oracle) (now : Int)
    (groups : List (Nat × List ValidRecord))
    (db : DB) (opIdx : Nat) : Except Unit (DB × Nat × List TicketSummary) :=
  match groups with
  | [] => .ok (db, opIdx, [])
  | (cid, data) :: rest =>
    match create_ticket_for_customer errLookup oracle now cid data db opIdx with
    | .error e => .error e
    | .ok (db', opIdx', s) =>
      match runGroups errLookup oracle now rest db' opIdx' with
      | .error e => .error e
      | .ok (db'', opIdx'', ss) => .ok (db'', opIdx'', s :: ss)

/-- The HTTP response of the ingestion endpoint. -/
structure PostResponse where
  status : Nat
  message : String
  tickets : List TicketSummary
deriving Repr, DecidableEq

/-- The validated-record list built by the per-record loop of `post`:
records failing `validate_and_sanitize_record` are dropped with a logged
warning. -/
def validatedFilter (items : List RawRecord) : List ValidRecord :=
  items.filterMap (fun item => (validate_and_sanitize_record item).toOption)

/-- The records that survive both the request serializer and
`validate_and_sanitize_record` for a raw batch (empty when the serializer
rejects the request as a whole). -/
def validatedOf (raw : List RawRecord) : List ValidRecord :=
  match serializerValidate raw with
  | .error _ => []
  | .ok items => validatedFilter items

/-- `CreatePrognosisTicketView.post`: size check, serializer validation,
per-record sanitization, customer grouping, then one atomic transaction
creating every row; an exception escaping the transaction rolls the
database back and yields a 500 response. -/
def post (custLookup errLookup : Lookup) (oracle : Oracle) (now : Int)
    (db : DB) (raw : List RawRecord) : PostResponse × DB :=
  if 1000 < raw.length then
    ({ status := 400, message := "Maximum 1000 records allowed per request",
       tickets := [] }, db)
  else
    match serializerValidate raw with
    | .error _ =>
        ({ status := 400, message := "Invalid data format", tickets := [] }, db)
    | .ok data_list =>
      if (validatedFilter data_list).length = 0 then
        ({ status := 400, message := "No valid records found after validation",
           tickets := [] }, db)
      else
        if (groupByCustomer custLookup (validatedFilter data_list)).length = 0 then
          ({ status := 400, message := "No valid customer data found",
             tickets := [] }, db)
        else
          match runGroups errLookup oracle now
              (groupByCustomer custLookup (validatedFilter data_list)) db 0 with
          | .ok (db', _, created_tickets) =>
              ({ status := 201,
                 message := "Successfully created " ++
                   toString created_tickets.length ++ " tickets",
                 tickets := created_tickets }, db')
          | .error _ =>
              ({ status := 500, message := "Internal server error occurred",
                 tickets := [] }, db)

/-! ## `TicketDetailSerializer.get_summary` -/

/-- Insertion-order deduplication, the embedding of `list(set(...))` (the
set's contents, in a deterministic order). -/
def dedupKeepFirst (l : List String) : List String :=
  l.foldl (fun acc s => if s ∈ acc then acc else acc ++ [s]) []

/-- Increment the count of one key in an association list, the embedding
of `d[k] = d.get(k, 0) + 1`. -/
def bumpCount (counts : List (String × Nat)) (key : String) : List (String × Nat) :=
  match counts with
  | [] => [(key, 1)]
  | (k, n) :: rest =>
      if k = key then (k, n + 1) :: rest else (k, n) :: bumpCount rest key

/-- The summary dict computed by `TicketDetailSerializer.get_summary` from
the ticket's vehicle and error rows. -/
structure Summary where
  total_vehicles : Nat
  total_errors : Nat
  unique_error_types : Nat
  error_types : List String
  error_status_breakdown : List (String × Nat)
  unique_locations : Nat
  locations : List String
  latest_error_time : Option Int
deriving Repr, DecidableEq

def get_summary (vehicles : List VinRow) (error_codes : List ErrRow) : Summary :=
  let error_status_counts :=
    error_codes.foldl
      (fun counts e =>
        bumpCount counts (if e.error_status = "" then "UNKNOWN" else e.error_status))
      []
  let unique_error_types :=
    dedupKeepFirst ((error_codes.filter (fun e => e.error_type ≠ "")).map
      (fun e => e.error_type))
  let locations := (vehicles.filter (fun v => v.vehicle_location ≠ "")).map
    (fun v => v.vehicle_location)
  let unique_locations := dedupKeepFirst locations
  { total_vehicles := vehicles.length
    total_errors := error_codes.length
    unique_error_types := unique_error_types.length
    error_types := unique_error_types.take 10
    error_status_breakdown := error_status_counts
    unique_locations := unique_locations.length
    locations := unique_locations.take 5
    latest_error_time :=
      match error_codes with
      | [] => none
      | e :: es => some (es.foldl (fun m x => max m x.created_at) e.created_at) }

/-! ## `TicketFilterSerializer` and `TicketListView` -/

/-- The query parameters of the ticket list endpoint, as supplied
(dates as day numbers). -/
structure FilterParams where
  customer_id : Option Int := none
  call_status_id : Option Int := none
  date_from : Option Int := none
  date_to : Option Int := none
  min_vehicles : Option Int := none
  max_vehicles : Option Int := none
  min_alerts : Option Int := none
  max_alerts : Option Int := none
  search : Option String := none
deriving Repr, DecidableEq

/-- `validate_search`: strip, remove the denylist characters, require at
least 2 remaining characters, cap at 100. -/
def validate_search (value : String) : Except String String :=
  if value ≠ "" then
    let cleaned := String.mk ((pyStrip value).data.filter
      (fun c => ¬ (c = '<' ∨ c = '>' ∨ c = '"' ∨ c = '\'' ∨ c = ';' ∨ c = '\\')))
    if cleaned.data.length < 2 then
      .error "Search term must be at least 2 characters"
    else .ok (String.mk (cleaned.data.take 100))
  else .ok value

/-- Python truthiness of `data.get(key)` for an optional integer field. -/
def truthyInt : Option Int → Bool
  | none => false
  | some v => v ≠ 0

/-- `IntegerField(min_value=lo)` accepts an absent field or a value at
least `lo`. -/
def fieldMin (v : Option Int) (lo : Int) : Bool :=
  match v with
  | none => true
  | some x => lo ≤ x

/-- `IntegerField(max_value=hi)` accepts an absent field or a value at
most `hi`. -/
def fieldMax (v : Option Int) (hi : Int) : Bool :=
  match v with
  | none => true
  | some x => x ≤ hi

/-- The result of running `validate_search` through the optional `search`
field (a `CharField(required=False, max_length=100)`). -/
def searchField (v : Option String) : Except String (Option String) :=
  match v with
  | none => .ok none
  | some s =>
      if 100 < s.data.length then .error "search max_length"
      else
        match validate_search s with
        | .error e => .error e
        | .ok s' => .ok (some s')

/-- The vehicle-count and alert-count range checks of the cross-field
`validate` method (the two nested `if data.get(...) and data.get(...)`
blocks). -/
def rangeChecks (data : FilterParams) : Except String FilterParams :=
  if truthyInt data.min_vehicles ∧ truthyInt data.max_vehicles ∧
      data.max_vehicles.getD 0 < data.min_vehicles.getD 0 then
    .error "min_vehicles must be less than max_vehicles"
  else if truthyInt data.min_alerts ∧ truthyInt data.max_alerts ∧
      data.max_alerts.getD 0 < data.min_alerts.getD 0 then
    .error "min_alerts must be less than max_alerts"
  else .ok data

/-- The cross-field `validate(self, data)` method: date-range checks then
the count-range checks. -/
def crossValidate (data : FilterParams) : Except String FilterParams :=
  if hdf : data.date_from.isSome ∧ data.date_to.isSome then
    if data.date_to.get hdf.2 < data.date_from.get hdf.1 then
      .error "date_from must be before date_to"
    else if 365 < data.date_to.get hdf.2 - data.date_from.get hdf.1 then
      .error "Date range cannot exceed 365 days"
    else rangeChecks data
  else rangeChecks data

/-- `TicketFilterSerializer.is_valid()`: the declared field bounds
(`min_value`/`max_value`/`max_length`) and `validate_search`, then the
cross-field `validate` method. -/
def ticketFilterValidate (p : FilterParams) : Except String FilterParams :=
  if ¬ fieldMin p.customer_id 1 then .error "customer_id min_value"
  else if ¬ (fieldMin p.call_status_id 1 ∧ fieldMax p.call_status_id 10) then
    .error "call_status_id bounds"
  else if ¬ fieldMin p.min_vehicles 1 then .error "min_vehicles min_value"
  else if ¬ fieldMin p.max_vehicles 1 then .error "max_vehicles min_value"
  else if ¬ fieldMin p.min_alerts 1 then .error "min_alerts min_value"
  else if ¬ fieldMin p.max_alerts 1 then .error "max_alerts min_value"
  else
    match searchField p.search with
    | .error e => .error e
    | .ok search => crossValidate { p with search := search }

/-- Contiguous-substring test on character lists. -/
def listContains : List Char → List Char → Bool
  | _, [] => true
  | [], _ :: _ => false
  | h :: t, needle => needle.isPrefixOf (h :: t) || listContains t needle

/-- Case-insensitive substring test, the embedding of `icontains`
(ASCII case folding). -/
def icontains (haystack needle : String) : Bool :=
  listContains (pyUpper haystack).data (pyUpper needle).data

/-- `TicketListView.apply_filters`: conjunction of the optional filters,
then order by `created_at` descending. -/
def apply_filters (tickets : List TicketRow) (f : FilterParams)
    (remarksOf complaintOf : TicketRow → String) : List TicketRow :=
  let q := tickets
  let q : List TicketRow := match f.customer_id with
    | some cid => if cid ≠ 0 then q.filter (fun t => (t.customer_id : Int) = cid) else q
    | none => q
  let q : List TicketRow := match f.call_status_id with
    | some sid => if sid ≠ 0 then q.filter (fun t => (t.call_status_id : Int) = sid) else q
    | none => q
  let q : List TicketRow := match f.date_from with
    | some d => if d ≠ 0 then q.filter (fun t => d ≤ t.created_at) else q
    | none => q
  let q : List TicketRow := match f.date_to with
    | some d => if d ≠ 0 then q.filter (fun t => t.created_at < d + 1) else q
    | none => q
  let q : List TicketRow := match f.min_vehicles with
    | some n => if n ≠ 0 then q.filter (fun t => n ≤ (t.vehicle_count : Int)) else q
    | none => q
  let q : List TicketRow := match f.max_vehicles with
    | some n => if n ≠ 0 then q.filter (fun t => (t.vehicle_count : Int) ≤ n) else q
    | none => q
  let q : List TicketRow := match f.min_alerts with
    | some n => if n ≠ 0 then q.filter (fun t => n ≤ (t.alert_count : Int)) else q
    | none => q
  let q : List TicketRow := match f.max_alerts with
    | some n => if n ≠ 0 then q.filter (fun t => (t.alert_count : Int) ≤ n) else q
    | none => q
  let q : List TicketRow := match f.search with
    | some s => if s ≠ "" then
        q.filter (fun t => icontains (remarksOf t) s ∨ icontains (complaintOf t) s)
      else q
    | none => q
  (q.mergeSort (fun a b => b.created_at ≤ a.created_at))

/-- The ticket list response: 400 with no ticket data when the filter
serializer rejects the query parameters. -/
structure ListResponse where
  status : Nat
  tickets : Option (List TicketRow)
deriving Repr, DecidableEq

/-- `TicketListView.get` (pagination elided): validate the filters, then
apply them. -/
def ticketListGet (db : DB) (params : FilterParams)
    (remarksOf complaintOf : TicketRow → String) : ListResponse :=
  match ticketFilterValidate params with
  | .error _ => { status := 400, tickets := none }
  | .ok filters =>
      { status := 200,
        tickets := some (apply_filters db.tickets filters remarksOf complaintOf) }

/-! ## `TicketStatsView.calculate_ticket_stats` -/

/-- Round half to even at 2 decimal places, as Python's `round(x, 2)`. -/
def round2 (q : Rat) : Rat :=
  let x := q * 100
  let f : Int := ⌊x⌋
  let r : Int :=
    if x - f < 1/2 then f
    else if (1:Rat)/2 < x - f then f + 1
    else if f % 2 = 0 then f else f + 1
  (r : Rat) / 100

structure Stats where
  total_tickets : Nat
  total_vehicles : Nat
  total_errors : Nat
  avg_vehicles_per_ticket : Rat
  avg_errors_per_ticket : Rat
  status_breakdown : List (String × Nat)
deriving Repr, DecidableEq

/-- `calculate_ticket_stats`: counts over the trailing window and the two
rounded averages, with a zero ticket count yielding 0 instead of a
division error. -/
def calculate_ticket_stats (db : DB) (start_date end_date : Int) : Stats :=
  let base := db.tickets.filter
    (fun t => start_date ≤ t.created_at ∧ t.created_at ≤ end_date)
  let total_tickets := base.length
  let total_vehicles :=
    (db.vins.filter (fun v => base.any (fun t => t.id = v.ticket_id))).length
  let total_errors :=
    (db.errors.filter (fun e => base.any (fun t => t.id = e.ticket_id))).length
  let status_breakdown :=
    ([1, 2, 3, 4, 5] : List Nat).foldl
      (fun acc sid =>
        let count := (base.filter (fun t => t.call_status_id = sid)).length
        if 0 < count then acc ++ [("status_" ++ toString sid, count)] else acc)
      []
  let avg_vehicles_per_ticket : Rat :=
    if 0 < total_tickets then (total_vehicles : Rat) / (total_tickets : Rat) else 0
  let avg_errors_per_ticket : Rat :=
    if 0 < total_tickets then (total_errors : Rat) / (total_tickets : Rat) else 0
  { total_tickets := total_tickets
    total_vehicles := total_vehicles
    total_errors := total_errors
    avg_vehicles_per_ticket := round2 avg_vehicles_per_ticket
    avg_errors_per_ticket := round2 avg_errors_per_ticket
    status_breakdown := status_breakdown }

/-! ## Concrete sample data -/

/-- A well-formed alert record with a lowercase error code. -/
def sampleRaw : RawRecord :=
  { vehicle_id := "VEH1", error_code := "p0420",
    datetime := "12.08.2025 11.10.00", location_lat := "12.5",
    location_long := "77.1", vehicle_location := "Chennai" }

/-- A record whose latitude is out of range. -/
def lat91Raw : RawRecord :=
  { vehicle_id := "VEH2", error_code := "P0301",
    datetime := "12.08.2025 11.10.00", location_lat := "91",
    location_long := "77.1", vehicle_location := "Chennai" }

/-- A customer lookup that resolves every vehicle to customer 7. -/
def custConst : Lookup := fun _ => some 7

/-- An error-code lookup that resolves every code to id 3. -/
def errConst : Lookup := fun _ => some 3

/-- An oracle under which the very first create raises. -/
def failOracle : Oracle := fun _ => true

/-! ## Theorems -/

/-- Claim C6: in the ticket detail view's computed summary, the list of
error types contains at most 10 entries and the list of locations at most
5 entries, however many distinct error types or locations the ticket's
rows hold. -/
theorem summary_error_types_and_locations_capped
    (vehicles : List VinRow) (error_codes : List ErrRow) :
    (get_summary vehicles error_codes).error_types.length ≤ 10 ∧
    (get_summary vehicles error_codes).locations.length ≤ 5 := by
  constructor <;> simp only [get_summary] <;> rw [List.length_take] <;> omega

/-- Evaluating `round2` at 0. -/
theorem round2_zero : round2 0 = 0 := by
  norm_num [round2]

/-- Claim C8: the stats computation returns both averages as 0 when the
window holds no tickets, and otherwise as the corresponding total divided
by the ticket count, rounded to 2 decimal places. -/
theorem stats_zero_tickets_and_averages (db : DB) (start_date end_date : Int) :
    ((calculate_ticket_stats db start_date end_date).total_tickets = 0 →
      (calculate_ticket_stats db start_date end_date).avg_vehicles_per_ticket = 0 ∧
      (calculate_ticket_stats db start_date end_date).avg_errors_per_ticket = 0) ∧
    ((calculate_ticket_stats db start_date end_date).total_tickets ≠ 0 →
      (calculate_ticket_stats db start_date end_date).avg_vehicles_per_ticket =
        round2 (((calculate_ticket_stats db start_date end_date).total_vehicles : Rat) /
          ((calculate_ticket_stats db start_date end_date).total_tickets : Rat)) ∧
      (calculate_ticket_stats db start_date end_date).avg_errors_per_ticket =
        round2 (((calculate_ticket_stats db start_date end_date).total_errors : Rat) /
          ((calculate_ticket_stats db start_date end_date).total_tickets : Rat))) := by
  constructor
  · intro h
    simp only [calculate_ticket_stats] at h ⊢
    rw [if_neg (by omega), if_neg (by omega)]
    exact ⟨round2_zero, round2_zero⟩
  · intro h
    simp only [calculate_ticket_stats] at h ⊢
    rw [if_pos (by omega), if_pos (by omega)]
    exact ⟨rfl, rfl⟩

/-- Witness for C8 at a concrete database with no tickets in range. -/
theorem stats_zero_tickets_witness :
    (calculate_ticket_stats DB.empty 0 10).avg_vehicles_per_ticket = 0 ∧
    (calculate_ticket_stats DB.empty 0 10).avg_errors_per_ticket = 0 :=
  (stats_zero_tickets_and_averages DB.empty 0 10).1 (by decide)

/-- Claim C2: every database row created by one ingestion request is
inside the single `transaction.atomic()` block: the request either
succeeds with 201, or leaves the database exactly as it was; in
particular an unexpected exception during persistence yields a 500
response with full rollback. -/
theorem ingestion_atomic_rollback (custLookup errLookup : Lookup)
    (oracle : Oracle) (now : Int) (db : DB) (raw : List RawRecord) :
    ((post custLookup errLookup oracle now db raw).1.status = 201 ∨
      (post custLookup errLookup oracle now db raw).2 = db) ∧
    ((post custLookup errLookup oracle now db raw).1.status = 500 →
      (post custLookup errLookup oracle now db raw).2 = db) := by
  unfold post
  repeat' split
  all_goals simp

/-- Witness for C2: a create failure injected into a valid single-record
batch rolls the database back (and the response is in fact 500). -/
theorem ingestion_atomic_rollback_witness :
    (post custConst errConst failOracle 0 DB.empty [sampleRaw]).2 = DB.empty :=
  (ingestion_atomic_rollback custConst errConst failOracle 0 DB.empty [sampleRaw]).2
    (by decide)

/-- The cross-field range check rejects an inverted vehicle-count range
whenever both bounds are truthy. -/
theorem rangeChecks_inverted (data : FilterParams) (mn mx : Int)
    (hmn : data.min_vehicles = some mn) (hmx : data.max_vehicles = some mx)
    (h1 : mn ≠ 0) (h2 : mx ≠ 0) (hlt : mx < mn) :
    rangeChecks data = .error "min_vehicles must be less than max_vehicles" := by
  unfold rangeChecks
  rw [if_pos]
  refine ⟨?_, ?_, ?_⟩ <;> simp [truthyInt, hmn, hmx, h1, h2, hlt]

/-- `crossValidate` never succeeds on an inverted truthy vehicle-count
range. -/
theorem crossValidate_inverted (data : FilterParams) (mn mx : Int)
    (hmn : data.min_vehicles = some mn) (hmx : data.max_vehicles = some mx)
    (h1 : mn ≠ 0) (h2 : mx ≠ 0) (hlt : mx < mn) :
    ∀ q, crossValidate data ≠ .ok q := by
  intro q hq
  have hrc := rangeChecks_inverted data mn mx hmn hmx h1 h2 hlt
  unfold crossValidate at hq
  split at hq
  · split at hq
    · exact Except.noConfusion hq
    · split at hq
      · exact Except.noConfusion hq
      · rw [hrc] at hq; exact Except.noConfusion hq
  · rw [hrc] at hq; exact Except.noConfusion hq

/-- Claim C7: a ticket-list request supplying both `min_vehicles` and
`max_vehicles` with `min_vehicles > max_vehicles` is answered with a 400
response and no ticket data. -/
theorem inverted_vehicle_range_400 (db : DB) (p : FilterParams) (mn mx : Int)
    (remarksOf complaintOf : TicketRow → String)
    (hmn : p.min_vehicles = some mn) (hmx : p.max_vehicles = some mx)
    (hlt : mx < mn) :
    ticketListGet db p remarksOf complaintOf = { status := 400, tickets := none } := by
  have hval : ∀ q, ticketFilterValidate p ≠ .ok q := by
    intro q hq
    unfold ticketFilterValidate at hq
    split at hq
    · exact Except.noConfusion hq
    · split at hq
      · exact Except.noConfusion hq
      · split at hq
        · exact Except.noConfusion hq
        · split at hq
          · exact Except.noConfusion hq
          · split at hq
            · exact Except.noConfusion hq
            · split at hq
              · exact Except.noConfusion hq
              · rename_i hc1 hc2 hcmn hcmx hc5 hc6
                rw [not_not] at hcmn hcmx
                rw [hmn] at hcmn
                rw [hmx] at hcmx
                simp only [fieldMin, decide_eq_true_eq] at hcmn hcmx
                split at hq
                · exact Except.noConfusion hq
                · rename_i search hsearch
                  exact crossValidate_inverted { p with search := search } mn mx
                    (by simpa using hmn) (by simpa using hmx)
                    (by omega) (by omega) hlt q hq
  unfold ticketListGet
  cases hv : ticketFilterValidate p with
  | error e => rfl
  | ok q => exact absurd hv (hval q)

/-- Witness for C7 at `min_vehicles = 5`, `max_vehicles = 2`. -/
theorem inverted_vehicle_range_400_witness :
    ticketListGet DB.empty
        { min_vehicles := some 5, max_vehicles := some 2 }
        (fun t => t.remarks) (fun _ => "") =
      { status := 400, tickets := none } :=
  inverted_vehicle_range_400 DB.empty
    { min_vehicles := some 5, max_vehicles := some 2 } 5 2
    (fun t => t.remarks) (fun _ => "") rfl rfl (by decide)

/-- The `total_alerts` counter counts exactly the records of the group. -/
theorem totalAlerts_eq (l : List ValidRecord) : totalAlerts l = l.length := by
  have aux : ∀ (l : List ValidRecord) (n : Nat),
      l.foldl (fun n _ => n + 1) n = n + l.length := by
    intro l
    induction l with
    | nil => simp
    | cons a t ih => intro n; simp only [List.foldl_cons, ih, List.length_cons]; omega
  simpa [totalAlerts] using aux l 0

/-- The keys of `vehicle_groups` are exactly the distinct vehicle ids of
the group, without duplicates. -/
theorem vehicleGroupIds_sound (data : List ValidRecord) :
    (vehicleGroupIds data).Nodup ∧
    ∀ v, v ∈ vehicleGroupIds data ↔ v ∈ data.map (fun r => r.vehicle_id) := by
  have aux : ∀ (l : List ValidRecord) (acc : List String), acc.Nodup →
      (l.foldl (fun acc r =>
        if r.vehicle_id ∈ acc then acc else acc ++ [r.vehicle_id]) acc).Nodup ∧
      ∀ v, v ∈ l.foldl (fun acc r =>
          if r.vehicle_id ∈ acc then acc else acc ++ [r.vehicle_id]) acc ↔
        v ∈ acc ∨ v ∈ l.map (fun r => r.vehicle_id) := by
    intro l
    induction l with
    | nil => intro acc h; simpa using h
    | cons r rest ih =>
      intro acc hacc
      by_cases hmem : r.vehicle_id ∈ acc
      · have := ih acc hacc
        constructor
        · simpa [List.foldl_cons, hmem] using this.1
        · intro v
          rw [List.foldl_cons, if_pos hmem, this.2 v]
          simp only [List.map_cons, List.mem_cons]
          constructor
          · rintro (h | h)
            · exact .inl h
            · exact .inr (.inr h)
          · rintro (h | h | h)
            · exact .inl h
            · exact .inl (h ▸ hmem)
            · exact .inr h
      · have hacc' : (acc ++ [r.vehicle_id]).Nodup := by
          simp [List.nodup_append, hacc, hmem]
        have := ih (acc ++ [r.vehicle_id]) hacc'
        constructor
        · simpa [List.foldl_cons, hmem] using this.1
        · intro v
          rw [List.foldl_cons, if_neg hmem, this.2 v]
          simp only [List.mem_append, List.mem_singleton, List.map_cons,
            List.mem_cons]
          tauto
  obtain ⟨h1, h2⟩ := aux data [] List.nodup_nil
  exact ⟨h1, fun v => by simpa using h2 v⟩

/-- The number of `vehicle_groups` keys is the number of distinct vehicle
identifiers in the group. -/
theorem vehicleGroupIds_length (data : List ValidRecord) :
    (vehicleGroupIds data).length =
      (data.map (fun r => r.vehicle_id)).toFinset.card := by
  obtain ⟨hnd, hmem⟩ := vehicleGroupIds_sound data
  rw [← List.toFinset_card_of_nodup hnd]
  congr 1
  ext v
  simp only [List.mem_toFinset]
  exact hmem v

/-- Error-row creation with no injected failure always succeeds and never
touches the ticket or vehicle tables. -/
theorem createErrRows_noFail (errLookup : Lookup) (now : Int) (tId vId : Nat)
    (records : List ValidRecord) : ∀ (db : DB) (op : Nat),
    ∃ db' op',
      createErrRows errLookup noFail now tId vId records db op = .ok (db', op') ∧
      db'.tickets = db.tickets ∧ db'.vins = db.vins := by
  induction records with
  | nil => intro db op; exact ⟨db, op, rfl, rfl, rfl⟩
  | cons r rest ih =>
    intro db op
    unfold createErrRows
    cases h : errLookup r.error_code with
    | none => exact ih db op
    | some ecId =>
      obtain ⟨db', op', heq, ht, hv⟩ := ih
        { db with errors := db.errors ++
            [{ vin_id := vId, ticket_id := tId, error_code_id := ecId,
               error_type := r.error_code,
               error_desc := "Error " ++ r.error_code ++ " detected",
               error_status := "ACTIVE", created_at := now }] } (op + 1)
      exact ⟨db', op', by simp [noFail, heq], ht, hv⟩

/-- Vehicle-row creation with no injected failure always succeeds and
never touches the ticket table. -/
theorem createVinRows_noFail (errLookup : Lookup) (now : Int) (tId : Nat)
    (data : List ValidRecord) (vids : List String) : ∀ (db : DB) (op : Nat),
    ∃ db' op',
      createVinRows errLookup noFail now tId data vids db op = .ok (db', op') ∧
      db'.tickets = db.tickets := by
  induction vids with
  | nil => intro db op; exact ⟨db, op, rfl, rfl⟩
  | cons vid rest ih =>
    intro db op
    unfold createVinRows
    cases hh : (groupOf data vid).head? with
    | none => exact ih db op
    | some first =>
      obtain ⟨db1, op1, heq1, ht1, _⟩ := createErrRows_noFail errLookup now tId
        db.vins.length (groupOf data vid)
        { db with vins := db.vins ++
            [{ id := db.vins.length, ticket_id := tId, vin_no := vid,
               vehicle_location := first.vehicle_location,
               lat := safe_decimal first.location_lat,
               long := safe_decimal first.location_long,
               created_at := now }] } (op + 1)
      obtain ⟨db2, op2, heq2, ht2⟩ := ih db1 op1
      refine ⟨db2, op2, ?_, ?_⟩
      · dsimp only
        rw [if_neg (show ¬ (noFail op = true) by simp [noFail])]
        rw [heq1]
        exact heq2
      · rw [ht2, ht1]

/-- Claim C1: for every customer group of a successfully ingested batch,
the created ticket's `alert_count` equals the number of validated records
of that customer and its `vehicle_count` equals the number of distinct
vehicle identifiers among them, for every error-code lookup function
(i.e. however many lookups fail). -/
theorem ticket_counts_match_input (errLookup : Lookup) (now : Int) (cid : Nat)
    (data : List ValidRecord) (db : DB) (op : Nat) :
    ∃ db' op', ∃ t : TicketRow,
      create_ticket_for_customer errLookup noFail now cid data db op =
        .ok (db', op',
          { ticket_id := t.id, customer_id := cid,
            vehicle_count := t.vehicle_count, alert_count := t.alert_count }) ∧
      db'.tickets = db.tickets ++ [t] ∧
      t.alert_count = data.length ∧
      t.vehicle_count = (data.map (fun r => r.vehicle_id)).toFinset.card := by
  obtain ⟨db1, op1, heq, ht⟩ := createVinRows_noFail errLookup now
    db.tickets.length data (vehicleGroupIds data)
    { db with tickets := db.tickets ++ [mkTicketRow db cid data now] } (op + 1)
  refine ⟨db1, op1, mkTicketRow db cid data now, ?_, ?_, ?_, ?_⟩
  · unfold create_ticket_for_customer
    rw [if_neg (show ¬ (noFail op = true) by simp [noFail])]
    rw [heq]
    rfl
  · simpa using ht
  · exact totalAlerts_eq data
  · exact vehicleGroupIds_length data

/-- The record built by the last line of `validate_and_sanitize_record`. -/
def sanitizedRecord (item : RawRecord) : ValidRecord :=
  { vehicle_id := pyStrip item.vehicle_id,
    error_code := pyUpper (pyStrip item.error_code),
    datetime := pyStrip item.datetime,
    location_lat := pyStrip item.location_lat,
    location_long := pyStrip item.location_long,
    vehicle_location := sanitizeLocation
      (String.mk ((pyStrip item.vehicle_location).data.take 255)) }

set_option maxHeartbeats 6400000 in
/-- Full characterization of `validate_and_sanitize_record`: a successful
result is the sanitized record and implies both coordinate-range checks,
and the error-code rejection fires only when even the uppercased code
fails the pattern. -/
theorem validate_and_sanitize_record_spec (item : RawRecord) :
    (∀ v, validate_and_sanitize_record item = .ok v →
      v = sanitizedRecord item ∧
      (∀ q, decOfString (pyStrip item.location_lat) = some q →
          -90 ≤ q ∧ q ≤ 90) ∧
      (∀ q, decOfString (pyStrip item.location_long) = some q →
          -180 ≤ q ∧ q ≤ 180)) ∧
    (validate_and_sanitize_record item = .error "Invalid error_code format" →
      matchesErrCode (pyUpper (pyStrip item.error_code)) = false) := by
  have key : ∀ X, validate_and_sanitize_record item = X →
      (∀ v, X = .ok v →
        v = sanitizedRecord item ∧
        (∀ q, decOfString (pyStrip item.location_lat) = some q →
            -90 ≤ q ∧ q ≤ 90) ∧
        (∀ q, decOfString (pyStrip item.location_long) = some q →
            -180 ≤ q ∧ q ≤ 180)) ∧
      (X = .error "Invalid error_code format" →
        matchesErrCode (pyUpper (pyStrip item.error_code)) = false) := by
    intro X hX
    delta validate_and_sanitize_record at hX
    repeat' split at hX
    all_goals subst hX
    all_goals try exact ⟨fun v h => Except.noConfusion h,
      fun h => by injection h with h2; exact absurd h2 (by decide)⟩
    · -- the error-code rejection branch
      exact ⟨fun v h => Except.noConfusion h, fun h => by
        simpa using ‹¬ matchesErrCode (pyUpper (pyStrip item.error_code)) = true›⟩
    · -- the successful branch
      rename_i hv he hd hlf hgf xl latd heql hlr xg lgd heqg hgr
      refine ⟨fun v h => ?_, fun h => Except.noConfusion h⟩
      cases h
      refine ⟨rfl, ?_, ?_⟩
      · intro q hq
        by_cases hemp : pyStrip item.location_lat = ""
        · rw [hemp, show decOfString "" = none from rfl] at hq
          exact Option.noConfusion hq
        · rw [if_pos hemp] at heql
          rw [hq] at heql
          injection heql with h2
          subst h2
          by_contra hcon
          exact hlr ⟨hemp, hcon⟩
      · intro q hq
        by_cases hemp : pyStrip item.location_long = ""
        · rw [hemp, show decOfString "" = none from rfl] at hq
          exact Option.noConfusion hq
        · rw [if_pos hemp] at heqg
          rw [hq] at heqg
          injection heqg with h2
          subst h2
          by_contra hcon
          exact hgr ⟨hemp, hcon⟩
  exact ⟨fun v h => (key _ rfl).1 v h, (key _ rfl).2⟩

set_option maxHeartbeats 6400000 in
/-- A successful `PrognosisDataSerializer` run returns the trimmed record
with the error code uppercased (`validate_error_code` returns
`value.upper()`). -/
theorem serializeRecord_spec (r : RawRecord) :
    ∀ v, serializeRecord r = .ok v →
      v = { vehicle_id := pyStrip r.vehicle_id,
            error_code := pyUpper (pyStrip r.error_code),
            datetime := pyStrip r.datetime,
            location_lat := pyStrip r.location_lat,
            location_long := pyStrip r.location_long,
            vehicle_location := pyStrip r.vehicle_location } := by
  have key : ∀ X, serializeRecord r = X →
      ∀ v, X = .ok v →
        v = { vehicle_id := pyStrip r.vehicle_id,
              error_code := pyUpper (pyStrip r.error_code),
              datetime := pyStrip r.datetime,
              location_lat := pyStrip r.location_lat,
              location_long := pyStrip r.location_long,
              vehicle_location := pyStrip r.vehicle_location } := by
    intro X hX
    delta serializeRecord at hX
    by_cases c1 : ¬ lengthOk (pyStrip r.vehicle_id) 1 20 = true
    · rw [if_pos c1] at hX; subst hX; exact fun v h => Except.noConfusion h
    rw [if_neg c1] at hX
    by_cases c2 : ¬ matchesVehicleId (pyStrip r.vehicle_id) = true
    · rw [if_pos c2] at hX; subst hX; exact fun v h => Except.noConfusion h
    rw [if_neg c2] at hX
    by_cases c3 : ¬ lengthOk (pyStrip r.error_code) 1 20 = true
    · rw [if_pos c3] at hX; subst hX; exact fun v h => Except.noConfusion h
    rw [if_neg c3] at hX
    by_cases c4 : ¬ matchesErrCode (pyUpper (pyStrip r.error_code)) = true
    · rw [if_pos c4] at hX; subst hX; exact fun v h => Except.noConfusion h
    rw [if_neg c4] at hX
    by_cases c5 : ¬ lengthOk (pyStrip r.datetime) 1 19 = true
    · rw [if_pos c5] at hX; subst hX; exact fun v h => Except.noConfusion h
    rw [if_neg c5] at hX
    by_cases c6 : ¬ matchesDatetime (pyStrip r.datetime) = true
    · rw [if_pos c6] at hX; subst hX; exact fun v h => Except.noConfusion h
    rw [if_neg c6] at hX
    by_cases c7 : ¬ lengthOk (pyStrip r.location_lat) 0 15 = true
    · rw [if_pos c7] at hX; subst hX; exact fun v h => Except.noConfusion h
    rw [if_neg c7] at hX
    by_cases c8 : pyStrip r.location_lat ≠ "" ∧
        ¬ matchesNumeric (pyStrip r.location_lat) = true
    · rw [if_pos c8] at hX; subst hX; exact fun v h => Except.noConfusion h
    rw [if_neg c8] at hX
    by_cases c9 : ¬ lengthOk (pyStrip r.location_long) 0 15 = true
    · rw [if_pos c9] at hX; subst hX; exact fun v h => Except.noConfusion h
    rw [if_neg c9] at hX
    by_cases c10 : pyStrip r.location_long ≠ "" ∧
        ¬ matchesNumeric (pyStrip r.location_long) = true
    · rw [if_pos c10] at hX; subst hX; exact fun v h => Except.noConfusion h
    rw [if_neg c10] at hX
    by_cases c11 : ¬ lengthOk (pyStrip r.vehicle_location) 0 255 = true
    · rw [if_pos c11] at hX; subst hX; exact fun v h => Except.noConfusion h
    rw [if_neg c11] at hX
    subst hX
    exact fun v h => by cases h; rfl
  exact key _ rfl

/-- Claim C3: ingestion normalizes every record's error code with
`.strip().upper()` before the error-code master lookup sees it — in both
the view's per-record validation and the serializer's
`validate_error_code` — and a record is never rejected merely for being
lowercase: the error-code rejection can only fire when even the
uppercased code fails the `[A-Z0-9\-_]{1,20}` pattern. -/
theorem error_code_normalized_before_lookup :
    (∀ (r : RawRecord) (v : ValidRecord),
        validate_and_sanitize_record r = .ok v →
        v.error_code = pyUpper (pyStrip r.error_code)) ∧
    (∀ r : RawRecord,
        validate_and_sanitize_record r = .error "Invalid error_code format" →
        matchesErrCode (pyUpper (pyStrip r.error_code)) = false) ∧
    (∀ (r v : RawRecord),
        serializeRecord r = .ok v →
        v.error_code = pyUpper (pyStrip r.error_code)) := by
  refine ⟨?_, ?_, ?_⟩
  · intro r v h
    rw [((validate_and_sanitize_record_spec r).1 v h).1]
    rfl
  · intro r h
    exact (validate_and_sanitize_record_spec r).2 h
  · intro r v h
    rw [serializeRecord_spec r v h]

/-- Witness for C3: the lowercase code `"p0420"` of `sampleRaw` is
accepted and stored uppercased as `"P0420"`. -/
theorem error_code_normalized_witness :
    (sanitizedRecord sampleRaw).error_code = pyUpper (pyStrip sampleRaw.error_code) ∧
    (sanitizedRecord sampleRaw).error_code = "P0420" :=
  ⟨error_code_normalized_before_lookup.1 sampleRaw (sanitizedRecord sampleRaw)
      (by rfl),
    by decide⟩

/-- Claim C5: an alert record whose latitude parses to a value outside
[-90, 90], or whose longitude parses to a value outside [-180, 180], is
dropped by per-record validation before the grouping stage, so it
contributes to no ticket, vehicle record or error record. -/
theorem out_of_range_coordinates_dropped (r : RawRecord) (q : Rat)
    (h : (decOfString (pyStrip r.location_lat) = some q ∧ (q < -90 ∨ 90 < q)) ∨
         (decOfString (pyStrip r.location_long) = some q ∧ (q < -180 ∨ 180 < q))) :
    (validate_and_sanitize_record r).toOption = none ∧
    ∀ rest, validatedFilter (r :: rest) = validatedFilter rest := by
  have hdrop : (validate_and_sanitize_record r).toOption = none := by
    cases hres : validate_and_sanitize_record r with
    | error e => rfl
    | ok v =>
      obtain ⟨-, hlat, hlong⟩ := (validate_and_sanitize_record_spec r).1 v hres
      exfalso
      rcases h with ⟨hq, hout⟩ | ⟨hq, hout⟩
      · rcases hlat q hq with ⟨h1, h2⟩
        rcases hout with h3 | h3 <;> linarith
      · rcases hlong q hq with ⟨h1, h2⟩
        rcases hout with h3 | h3 <;> linarith
  refine ⟨hdrop, fun rest => ?_⟩
  simp only [validatedFilter, List.filterMap_cons, hdrop]

/-- Witness for C5: latitude `"91"` is dropped and contributes nothing. -/
theorem out_of_range_coordinates_dropped_witness :
    (validate_and_sanitize_record lat91Raw).toOption = none ∧
    validatedFilter [lat91Raw] = validatedFilter [] :=
  have hmain := out_of_range_coordinates_dropped lat91Raw 91
    (Or.inl ⟨by decide, by decide⟩)
  ⟨hmain.1, hmain.2 []⟩

/-- The grouping loop produces no customer group when no record's vehicle
resolves to a customer. -/
theorem groupByCustomer_nil (custLookup : Lookup) (l : List ValidRecord)
    (h : ∀ r ∈ l, custLookup r.vehicle_id = none) :
    groupByCustomer custLookup l = [] := by
  unfold groupByCustomer
  induction l with
  | nil => rfl
  | cons a t ih =>
    rw [List.foldl_cons, h a (by simp)]
    exact ih (fun r hr => h r (by simp [hr]))

/-- Claim C4: a batch in which no validated record's vehicle identifier
resolves to a customer yields a 400 response, no ticket summaries, and an
unchanged database (zero tickets created). -/
theorem unresolvable_batch_400 (custLookup errLookup : Lookup)
    (oracle : Oracle) (now : Int) (db : DB) (raw : List RawRecord)
    (h : ∀ r ∈ validatedOf raw, custLookup r.vehicle_id = none) :
    (post custLookup errLookup oracle now db raw).1.status = 400 ∧
    (post custLookup errLookup oracle now db raw).1.tickets = [] ∧
    (post custLookup errLookup oracle now db raw).2 = db := by
  unfold post
  split
  · exact ⟨rfl, rfl, rfl⟩
  · split
    · exact ⟨rfl, rfl, rfl⟩
    · rename_i items heq
      split
      · exact ⟨rfl, rfl, rfl⟩
      · rename_i hne
        have hg : groupByCustomer custLookup (validatedFilter items) = [] := by
          apply groupByCustomer_nil
          intro r hr
          apply h
          unfold validatedOf
          rw [heq]
          exact hr
        split
        · exact ⟨rfl, rfl, rfl⟩
        · rename_i hglen
          exact absurd (by rw [hg]; rfl) hglen

/-- Witness for C4: a valid one-record batch whose customer lookup always
misses is answered 400 with no tickets and no database change. -/
theorem unresolvable_batch_400_witness :
    (post (fun _ => none) errConst noFail 0 DB.empty [sampleRaw]).1.status = 400 ∧
    (post (fun _ => none) errConst noFail 0 DB.empty [sampleRaw]).1.tickets = [] ∧
    (post (fun _ => none) errConst noFail 0 DB.empty [sampleRaw]).2 = DB.empty :=
  unresolvable_batch_400 (fun _ => none) errConst noFail 0 DB.empty [sampleRaw]
    (by decide)

/-- Rows appended by `createErrRows` all reference the given vehicle row
and ticket, and are created `ACTIVE` with the request clock; the ticket
and vehicle tables are untouched. -/
theorem createErrRows_spec (errLookup : Lookup) (oracle : Oracle) (now : Int)
    (tId vId : Nat) (records : List ValidRecord) :
    ∀ db op db' op',
      createErrRows errLookup oracle now tId vId records db op = .ok (db', op') →
      db'.tickets = db.tickets ∧ db'.vins = db.vins ∧
      ∃ es, db'.errors = db.errors ++ es ∧
        ∀ e ∈ es, e.vin_id = vId ∧ e.ticket_id = tId ∧
          e.error_status = "ACTIVE" ∧ e.created_at = now := by
  induction records with
  | nil =>
    intro db op db' op' h
    unfold createErrRows at h
    cases h
    exact ⟨rfl, rfl, [], by simp, by simp⟩
  | cons r rest ih =>
    intro db op db' op' h
    unfold createErrRows at h
    split at h
    · -- the error code resolved
      rename_i ecId heq
      split at h
      · exact Except.noConfusion h
      · obtain ⟨ht, hv, es', hes', hprop⟩ := ih _ _ _ _ h
        refine ⟨by simpa using ht, by simpa using hv,
          ({ vin_id := vId, ticket_id := tId, error_code_id := ecId,
             error_type := r.error_code,
             error_desc := "Error " ++ r.error_code ++ " detected",
             error_status := "ACTIVE", created_at := now } : ErrRow) :: es',
          ?_, ?_⟩
        · rw [hes']
          simp
        · intro e hmem
          rcases List.mem_cons.mp hmem with hcase | hcase
          · subst hcase
            exact ⟨rfl, rfl, rfl, rfl⟩
          · exact hprop e hcase
    · -- unresolvable code: skipped
      exact ih db op db' op' h

/-- Rows appended by the per-vehicle loop: each new vehicle row belongs
to the given ticket, and each new error row is `ACTIVE`, carries the
request clock, and references one of the new vehicle rows of that same
ticket. -/
theorem createVinRows_spec (errLookup : Lookup) (oracle : Oracle) (now : Int)
    (tId : Nat) (data : List ValidRecord) :
    ∀ vids db op db' op',
      createVinRows errLookup oracle now tId data vids db op = .ok (db', op') →
      db'.tickets = db.tickets ∧
      ∃ vs es, db'.vins = db.vins ++ vs ∧ db'.errors = db.errors ++ es ∧
        (∀ v ∈ vs, v.ticket_id = tId ∧ v.created_at = now) ∧
        (∀ e ∈ es, e.error_status = "ACTIVE" ∧ e.created_at = now ∧
          ∃ v ∈ vs, v.id = e.vin_id ∧ v.ticket_id = e.ticket_id) := by
  intro vids
  induction vids with
  | nil =>
    intro db op db' op' h
    unfold createVinRows at h
    cases h
    exact ⟨rfl, [], [], by simp, by simp, by simp, by simp⟩
  | cons vid rest ih =>
    intro db op db' op' h
    unfold createVinRows at h
    split at h
    · -- empty vehicle group: nothing created
      exact ih db op db' op' h
    · rename_i first hh
      split at h
      · exact Except.noConfusion h
      · rename_i hor
        split at h
        · exact Except.noConfusion h
        · rename_i db2 op2 hce
          obtain ⟨ht1, hv1, es1, hes1, hprop1⟩ :=
            createErrRows_spec errLookup oracle now tId db.vins.length
              (groupOf data vid) _ _ db2 op2 hce
          obtain ⟨ht2, vs2, es2, hvs2, hes2, hvp2, hep2⟩ :=
            ih db2 op2 db' op' h
          refine ⟨by rw [ht2]; simpa using ht1,
            ({ id := db.vins.length, ticket_id := tId, vin_no := vid,
               vehicle_location := first.vehicle_location,
               lat := safe_decimal first.location_lat,
               long := safe_decimal first.location_long,
               created_at := now } : VinRow) :: vs2, es1 ++ es2, ?_, ?_, ?_, ?_⟩
          · rw [hvs2, hv1]
            simp
          · rw [hes2, hes1]
            simp
          · intro v hmem
            rcases List.mem_cons.mp hmem with hcase | hcase
            · subst hcase
              exact ⟨rfl, rfl⟩
            · exact hvp2 v hcase
          · intro e hmem
            rcases List.mem_append.mp hmem with hcase | hcase
            · obtain ⟨hvid, htid, hst, hcr⟩ := hprop1 e hcase
              exact ⟨hst, hcr,
                { id := db.vins.length, ticket_id := tId, vin_no := vid,
                  vehicle_location := first.vehicle_location,
                  lat := safe_decimal first.location_lat,
                  long := safe_decimal first.location_long,
                  created_at := now }, List.mem_cons_self _ _,
                by rw [hvid], by rw [htid]⟩
            · obtain ⟨hst, hcr, v, hvmem, hv1', hv2'⟩ := hep2 e hcase
              exact ⟨hst, hcr, v, List.mem_cons_of_mem _ hvmem, hv1', hv2'⟩

/-- Rows appended by one `create_ticket_for_customer` call: one ticket
row stamped with the request clock, vehicle rows of that ticket, and
error rows that are `ACTIVE` and reference a new vehicle row of the same
ticket. -/
theorem create_ticket_for_customer_spec (errLookup : Lookup) (oracle : Oracle)
    (now : Int) (cid : Nat) (data : List ValidRecord) (db : DB) (op : Nat)
    (db' : DB) (op' : Nat) (s : TicketSummary)
    (h : create_ticket_for_customer errLookup oracle now cid data db op =
      .ok (db', op', s)) :
    ∃ ts vs es, db'.tickets = db.tickets ++ ts ∧ db'.vins = db.vins ++ vs ∧
      db'.errors = db.errors ++ es ∧
      (∀ t ∈ ts, t.created_at = now) ∧
      (∀ v ∈ vs, v.created_at = now) ∧
      (∀ e ∈ es, e.error_status = "ACTIVE" ∧ e.created_at = now ∧
        ∃ v ∈ vs, v.id = e.vin_id ∧ v.ticket_id = e.ticket_id) := by
  unfold create_ticket_for_customer at h
  split at h
  · exact Except.noConfusion h
  · split at h
    · exact Except.noConfusion h
    · rename_i db2 op2 hcv
      cases h
      obtain ⟨ht, vs, es, hvs, hes, hvp, hep⟩ :=
        createVinRows_spec errLookup oracle now db.tickets.length data
          (vehicleGroupIds data) _ _ _ _ hcv
      refine ⟨[mkTicketRow db cid data now], vs, es, ?_, by simpa using hvs,
        by simpa using hes, ?_, ?_, fun e he => hep e he⟩
      · rw [ht]
      · intro t ht'
        rcases List.mem_singleton.mp ht' with rfl
        rfl
      · intro v hv
        exact (hvp v hv).2

/-- Rows appended by the whole atomic block (`runGroups`): concatenation
of the per-customer-group rows, preserving the per-ticket link
properties. -/
theorem runGroups_spec (errLookup : Lookup) (oracle : Oracle) (now : Int) :
    ∀ groups db op db' op' ss,
      runGroups errLookup oracle now groups db op = .ok (db', op', ss) →
      ∃ ts vs es, db'.tickets = db.tickets ++ ts ∧ db'.vins = db.vins ++ vs ∧
        db'.errors = db.errors ++ es ∧
        (∀ t ∈ ts, t.created_at = now) ∧
        (∀ v ∈ vs, v.created_at = now) ∧
        (∀ e ∈ es, e.error_status = "ACTIVE" ∧ e.created_at = now ∧
          ∃ v ∈ vs, v.id = e.vin_id ∧ v.ticket_id = e.ticket_id) := by
  intro groups
  induction groups with
  | nil =>
    intro db op db' op' ss h
    unfold runGroups at h
    cases h
    exact ⟨[], [], [], by simp, by simp, by simp, by simp, by simp, by simp⟩
  | cons g rest ih =>
    intro db op db' op' ss h
    unfold runGroups at h
    split at h
    · exact Except.noConfusion h
    · rename_i db1 op1 s1 hc
      split at h
      · exact Except.noConfusion h
      · rename_i db2 op2 ss2 hr
        obtain ⟨ts1, vs1, es1, h1t, h1v, h1e, p1t, p1v, p1e⟩ :=
          create_ticket_for_customer_spec errLookup oracle now g.1 g.2
            db op db1 op1 s1 hc
        obtain ⟨ts2, vs2, es2, h2t, h2v, h2e, p2t, p2v, p2e⟩ :=
          ih db1 op1 db2 op2 ss2 hr
        cases h
        refine ⟨ts1 ++ ts2, vs1 ++ vs2, es1 ++ es2, ?_, ?_, ?_, ?_, ?_, ?_⟩
        · rw [h2t, h1t, List.append_assoc]
        · rw [h2v, h1v, List.append_assoc]
        · rw [h2e, h1e, List.append_assoc]
        · intro t ht
          rcases List.mem_append.mp ht with hc' | hc'
          · exact p1t t hc'
          · exact p2t t hc'
        · intro v hv
          rcases List.mem_append.mp hv with hc' | hc'
          · exact p1v v hc'
          · exact p2v v hc'
        · intro e he
          rcases List.mem_append.mp he with hc' | hc'
          · obtain ⟨hst, hcr, v, hvm, e1, e2⟩ := p1e e hc'
            exact ⟨hst, hcr, v, List.mem_append.mpr (.inl hvm), e1, e2⟩
          · obtain ⟨hst, hcr, v, hvm, e1, e2⟩ := p2e e hc'
            exact ⟨hst, hcr, v, List.mem_append.mpr (.inr hvm), e1, e2⟩

/-- Claim C9: every error record created by one ingestion request is
created with `error_status = "ACTIVE"` and references the same ticket as
the vehicle record it points to, so no error record persisted by the
request links a vehicle record of one ticket to a different ticket. -/
theorem error_rows_reference_own_ticket (custLookup errLookup : Lookup)
    (oracle : Oracle) (now : Int) (db : DB) (raw : List RawRecord) :
    ∃ ts vs es,
      (post custLookup errLookup oracle now db raw).2.tickets = db.tickets ++ ts ∧
      (post custLookup errLookup oracle now db raw).2.vins = db.vins ++ vs ∧
      (post custLookup errLookup oracle now db raw).2.errors = db.errors ++ es ∧
      ∀ e ∈ es, e.error_status = "ACTIVE" ∧
        ∃ v ∈ vs, v.id = e.vin_id ∧ v.ticket_id = e.ticket_id := by
  have triv : ∃ ts vs es,
      db.tickets = db.tickets ++ ts ∧ db.vins = db.vins ++ vs ∧
      db.errors = db.errors ++ es ∧
      ∀ e ∈ es, e.error_status = "ACTIVE" ∧
        ∃ v ∈ vs, v.id = e.vin_id ∧ v.ticket_id = e.ticket_id :=
    ⟨[], [], [], by simp, by simp, by simp, by simp⟩
  unfold post
  split
  · exact triv
  · split
    · exact triv
    · split
      · exact triv
      · split
        · exact triv
        · split
          · -- the transaction committed
            rename_i db1 op1 ss hr
            obtain ⟨ts, vs, es, ht, hv, he, -, -, pe⟩ :=
              runGroups_spec errLookup oracle now _ db 0 db1 op1 ss hr
            exact ⟨ts, vs, es, ht, hv, he, fun e hmem =>
              ⟨(pe e hmem).1, (pe e hmem).2.2⟩⟩
          · exact triv

/-- Rewrite only the datetime field of a validated record. -/
def setDatetime (r : ValidRecord) (s : String) : ValidRecord :=
  { r with datetime := s }

/-- The vehicle-group keys ignore every field but `vehicle_id`. -/
theorem vehicleGroupIds_map (g : ValidRecord → ValidRecord)
    (hg : ∀ r, (g r).vehicle_id = r.vehicle_id) (data : List ValidRecord) :
    vehicleGroupIds (data.map g) = vehicleGroupIds data := by
  unfold vehicleGroupIds
  suffices haux : ∀ acc,
      (data.map g).foldl (fun acc r =>
        if r.vehicle_id ∈ acc then acc else acc ++ [r.vehicle_id]) acc =
      data.foldl (fun acc r =>
        if r.vehicle_id ∈ acc then acc else acc ++ [r.vehicle_id]) acc from
    haux []
  induction data with
  | nil => intro acc; rfl
  | cons a t ih =>
    intro acc
    simp only [List.map_cons, List.foldl_cons, hg a]
    exact ih _

/-- Vehicle sub-partitions ignore every field but `vehicle_id`. -/
theorem groupOf_map (g : ValidRecord → ValidRecord)
    (hg : ∀ r, (g r).vehicle_id = r.vehicle_id)
    (data : List ValidRecord) (vid : String) :
    groupOf (data.map g) vid = (groupOf data vid).map g := by
  unfold groupOf
  induction data with
  | nil => rfl
  | cons a t ih =>
    simp only [List.map_cons, List.filter_cons, hg a]
    split
    · simp only [List.map_cons, ih]
    · exact ih

/-- The alert counter only counts records. -/
theorem totalAlerts_map (g : ValidRecord → ValidRecord)
    (data : List ValidRecord) :
    totalAlerts (data.map g) = totalAlerts data := by
  rw [totalAlerts_eq, totalAlerts_eq, List.length_map]

/-- Error-row creation reads only the `error_code` field of each record. -/
theorem createErrRows_map (errLookup : Lookup) (oracle : Oracle) (now : Int)
    (tId vId : Nat) (g : ValidRecord → ValidRecord)
    (hg : ∀ r, (g r).error_code = r.error_code) (records : List ValidRecord) :
    ∀ db op, createErrRows errLookup oracle now tId vId (records.map g) db op =
      createErrRows errLookup oracle now tId vId records db op := by
  induction records with
  | nil => intro db op; rfl
  | cons r rest ih =>
    intro db op
    unfold createErrRows
    simp only [List.map_cons, hg r]
    cases errLookup r.error_code with
    | none => exact ih db op
    | some ecId =>
      by_cases ho : oracle op = true
      · simp only [if_pos ho]
      · simp only [if_neg ho]
        exact ih _ _

/-- Vehicle-row creation reads only the identifier, location and
coordinate fields of each record. -/
theorem createVinRows_map (errLookup : Lookup) (oracle : Oracle) (now : Int)
    (tId : Nat) (g : ValidRecord → ValidRecord)
    (hgv : ∀ r, (g r).vehicle_id = r.vehicle_id)
    (hge : ∀ r, (g r).error_code = r.error_code)
    (hglat : ∀ r, (g r).location_lat = r.location_lat)
    (hglong : ∀ r, (g r).location_long = r.location_long)
    (hgloc : ∀ r, (g r).vehicle_location = r.vehicle_location)
    (data : List ValidRecord) (vids : List String) :
    ∀ db op, createVinRows errLookup oracle now tId (data.map g) vids db op =
      createVinRows errLookup oracle now tId data vids db op := by
  induction vids with
  | nil => intro db op; rfl
  | cons vid rest ih =>
    intro db op
    unfold createVinRows
    rw [groupOf_map g hgv data vid, List.head?_map]
    cases hh : (groupOf data vid).head? with
    | none =>
      simp only [Option.map_none']
      exact ih db op
    | some first =>
      simp only [Option.map_some']
      rw [hglat first, hglong first, hgloc first]
      rw [createErrRows_map errLookup oracle now tId db.vins.length g hge]
      split
      · rfl
      · cases createErrRows errLookup oracle now tId db.vins.length
            (groupOf data vid)
            { db with vins := db.vins ++
                [{ id := db.vins.length, ticket_id := tId, vin_no := vid,
                   vehicle_location := first.vehicle_location,
                   lat := safe_decimal first.location_lat,
                   long := safe_decimal first.location_long,
                   created_at := now }] } (op + 1) with
        | error e => rfl
        | ok res => exact ih res.1 res.2

/-- The created ticket row reads no record field but `vehicle_id` (for
the distinct-vehicle count) and the record count. -/
theorem mkTicketRow_map (g : ValidRecord → ValidRecord)
    (hg : ∀ r, (g r).vehicle_id = r.vehicle_id)
    (db : DB) (cid : Nat) (data : List ValidRecord) (now : Int) :
    mkTicketRow db cid (data.map g) now = mkTicketRow db cid data now := by
  unfold mkTicketRow
  rw [vehicleGroupIds_map g hg data, totalAlerts_map g data]

/-- `create_ticket_for_customer` ignores the datetime field of every
record: only identifier, error-code, location and coordinate fields can
reach a persisted row. -/
theorem create_ticket_for_customer_map (errLookup : Lookup) (oracle : Oracle)
    (now : Int) (cid : Nat) (g : ValidRecord → ValidRecord)
    (hgv : ∀ r, (g r).vehicle_id = r.vehicle_id)
    (hge : ∀ r, (g r).error_code = r.error_code)
    (hglat : ∀ r, (g r).location_lat = r.location_lat)
    (hglong : ∀ r, (g r).location_long = r.location_long)
    (hgloc : ∀ r, (g r).vehicle_location = r.vehicle_location)
    (data : List ValidRecord) (db : DB) (op : Nat) :
    create_ticket_for_customer errLookup oracle now cid (data.map g) db op =
      create_ticket_for_customer errLookup oracle now cid data db op := by
  unfold create_ticket_for_customer
  rw [vehicleGroupIds_map g hgv data, totalAlerts_map g data,
    mkTicketRow_map g hgv db cid data now,
    createVinRows_map errLookup oracle now db.tickets.length g
      hgv hge hglat hglong hgloc data]

/-- Claim C10: the datetime field of an alert record never affects any
persisted row — rewriting every record's datetime arbitrarily leaves the
rows created for a customer group unchanged; validation only carries the
stripped datetime string through the validated record; and the
`created_at` stamp of every created row is the request clock, not a value
derived from the field. -/
theorem datetime_never_persisted :
    (∀ (f : ValidRecord → String) (errLookup : Lookup) (oracle : Oracle)
        (now : Int) (cid : Nat) (data : List ValidRecord) (db : DB) (op : Nat),
      create_ticket_for_customer errLookup oracle now cid
          (data.map (fun r => setDatetime r (f r))) db op =
        create_ticket_for_customer errLookup oracle now cid data db op) ∧
    (∀ (r : RawRecord) (v : ValidRecord),
      validate_and_sanitize_record r = .ok v →
      v.datetime = pyStrip r.datetime) ∧
    (∀ (errLookup : Lookup) (oracle : Oracle) (now : Int) (cid : Nat)
        (data : List ValidRecord) (db : DB) (op : Nat)
        (db' : DB) (op' : Nat) (s : TicketSummary),
      create_ticket_for_customer errLookup oracle now cid data db op =
          .ok (db', op', s) →
      ∃ ts vs es, db'.tickets = db.tickets ++ ts ∧
        db'.vins = db.vins ++ vs ∧ db'.errors = db.errors ++ es ∧
        (∀ t ∈ ts, t.created_at = now) ∧ (∀ v ∈ vs, v.created_at = now) ∧
        (∀ e ∈ es, e.created_at = now)) := by
  refine ⟨?_, ?_, ?_⟩
  · intro f errLookup oracle now cid data db op
    exact create_ticket_for_customer_map errLookup oracle now cid
      (fun r => setDatetime r (f r)) (fun r => rfl) (fun r => rfl)
      (fun r => rfl) (fun r => rfl) (fun r => rfl) data db op
  · intro r v h
    rw [((validate_and_sanitize_record_spec r).1 v h).1]
    rfl
  · intro errLookup oracle now cid data db op db' op' s h
    obtain ⟨ts, vs, es, ht, hv, he, pt, pv, pe⟩ :=
      create_ticket_for_customer_spec errLookup oracle now cid data db op
        db' op' s h
    exact ⟨ts, vs, es, ht, hv, he, pt, pv, fun e hmem => (pe e hmem).2.1⟩

/-- Witness for C10: the validated form of `sampleRaw` carries its
datetime string through unchanged. -/
theorem datetime_never_persisted_witness :
    (sanitizedRecord sampleRaw).datetime = pyStrip sampleRaw.datetime :=
  datetime_never_persisted.2.1 sampleRaw (sanitizedRecord sampleRaw) (by rfl)

end Prognosis
